import Mathlib

/-!
Shallow embedding of `src/read_docs.py`, a script that extracts text from a
word-processing document (docx) and a spreadsheet (xlsx) and writes the
concatenation to one output file, together with theorems settling the
specification claims about it.

Modelling conventions:
* An open output stream is modelled by the string of everything written to it;
  each `write` call appends.
* A fallible library call (`docx.Document`, `zipfile.ZipFile`, `ET.fromstring`)
  is modelled by an `Except String` value carried in the input: `.error e`
  means the call raises an exception whose `str()` is `e`.
* A Python function that may let an exception escape returns
  `String × Option String`: the text written before returning or raising,
  and the escaping exception (if any).
* Python `str.strip` is modelled by `pyStrip`, `str.replace("\n", " ")` by
  `replaceNewlines`, `"sep".join` by `joinSep`, `str.endswith` by
  `pyEndsWith`, all defined below by structural recursion so that concrete
  runs evaluate inside the kernel.
* An XML element (`xml.etree.ElementTree.Element`) is a node with an optional
  direct text (`.text`), a list of child elements, and an optional tail text
  (`.tail`), mirroring the ElementTree data model; `Element.iter()` is the
  pre-order traversal `Xml.iter`.
-/

namespace ReadDocs

/-- Drop leading whitespace characters from a character list. -/
def dropLeading : List Char → List Char
  | [] => []
  | c :: cs => if c.isWhitespace then dropLeading cs else c :: cs

/-- Python `s.strip()`: remove leading and trailing whitespace. -/
def pyStrip (s : String) : String :=
  String.mk (List.reverse (dropLeading (List.reverse (dropLeading s.data))))

/-- Python `s.replace("\n", " ")`: replace each line-break character by a space. -/
def replaceNewlines (s : String) : String :=
  String.mk (s.data.map (fun c => if c = '\n' then ' ' else c))

/-- Python `sep.join(xs)`. -/
def joinSep (sep : String) : List String → String
  | [] => ""
  | [x] => x
  | x :: y :: xs => x ++ sep ++ joinSep sep (y :: xs)

/-- Python `s.endswith(suffix)`. -/
def pyEndsWith (s suffix : String) : Bool :=
  suffix.data.isSuffixOf s.data

/-- Concatenation of a list of written fragments, in order. -/
def strConcat : List String → String
  | [] => ""
  | s :: ss => s ++ strConcat ss

/-- A word-processing document as `python-docx` presents it: the text of each
paragraph in document order, and the tables, each a list of rows, each row a
list of cell texts. -/
structure DocxDoc where
  paragraphs : List String
  tables : List (List (List String))

/-- Lines 8-10 of the source, one paragraph: `if p.text.strip():
out_file.write(p.text + "\n")`. Note the untrimmed `p.text` is written. -/
def paraOut (t : String) : String :=
  if pyStrip t = "" then "" else t ++ "\n"

/-- The paragraph loop of `read_docx` (lines 8-10). -/
def paragraphsOut : List String → String
  | [] => ""
  | p :: ps => paraOut p ++ paragraphsOut ps

/-- Line 15 of the source: `cell.text.replace("\n", " ").strip()`. -/
def cellNorm (c : String) : String :=
  pyStrip (replaceNewlines c)

/-- Lines 13-17 of the source, one table row: build `row_data`, and if
`any(row_data)` (some cell string is non-empty), write the cells joined by
`" | "` plus a line break. -/
def rowOut (row : List String) : String :=
  let row_data := row.map cellNorm
  if row_data.any (fun s => !(s == "")) then joinSep " | " row_data ++ "\n" else ""

/-- The row loop over one table (lines 12-17). -/
def rowsOut : List (List String) → String
  | [] => ""
  | r :: rs => rowOut r ++ rowsOut rs

/-- The table loop of `read_docx` (lines 11-17). -/
def tablesOut : List (List (List String)) → String
  | [] => ""
  | t :: ts => rowsOut t ++ tablesOut ts

/-- Lines 5-17 of the source: write the header line, then open the document
(`docx.Document(path)`, modelled by the `Except` input: on `.error` the
exception escapes after the header was written), then write paragraphs and
tables. Returns (text written, escaping exception if any). -/
def read_docx (path : String) (doc : Except String DocxDoc) : String × Option String :=
  let header := "--- DOCX: " ++ path ++ " ---\n"
  match doc with
  | .error e => (header, some e)
  | .ok d => (header ++ paragraphsOut d.paragraphs ++ tablesOut d.tables, none)

/-- An ElementTree element: direct text (`.text`), children, tail text (`.tail`). -/
inductive Xml where
  | node (text : Option String) (children : List Xml) (tail : Option String)

/-- Direct text content of an element. -/
def Xml.text : Xml → Option String
  | .node t _ _ => t

/-- Children of an element. -/
def Xml.children : Xml → List Xml
  | .node _ cs _ => cs

/-- Tail text of an element. -/
def Xml.tail : Xml → Option String
  | .node _ _ tl => tl

/-- Lines 29-30 of the source for one element: `if elem.text and
elem.text.strip(): out_file.write(elem.text.strip() + "\n")`. A `None` text or
an empty text is falsy in Python, so the guard is: the text exists and is
non-empty after stripping. -/
def textLine (t : Option String) : String :=
  match t with
  | some s => if pyStrip s = "" then "" else pyStrip s ++ "\n"
  | none => ""

mutual

/-- Lines 28-30 of the source: the text written by the `for elem in
root.iter()` loop, traversing the element and its descendants in pre-order. -/
def Xml.iterOut : Xml → String
  | .node t cs _ => textLine t ++ Xml.iterOutList cs

/-- The `root.iter()` loop continued over a list of sibling elements. -/
def Xml.iterOutList : List Xml → String
  | [] => ""
  | x :: xs => Xml.iterOut x ++ Xml.iterOutList xs

end

mutual

/-- `Element.iter()`: the element and all its descendants in pre-order
(document order). -/
def Xml.iter : Xml → List Xml
  | .node t cs tl => Xml.node t cs tl :: Xml.iterList cs

/-- Pre-order traversal of a list of sibling elements. -/
def Xml.iterList : List Xml → List Xml
  | [] => []
  | x :: xs => Xml.iter x ++ Xml.iterList xs

end

/-- What lines 29-30 write for a single visited element. -/
def nodeLine (x : Xml) : String :=
  textLine x.text

/-- One entry of the opened zip archive: its name as reported by
`z.namelist()`, and the result of `ET.fromstring(z.read(name))`, `.error e`
when reading or parsing raises. -/
structure Entry where
  name : String
  parse : Except String Xml

/-- Lines 24-32 of the source for one archive entry: entries whose name does
not end in `.xml` are not read or parsed; a read/parse failure is swallowed by
the inner `except Exception: pass`; a parsed tree is traversed by
`Xml.iterOut`. -/
def entryOut (ent : Entry) : String :=
  if pyEndsWith ent.name ".xml" then
    match ent.parse with
    | .ok root => Xml.iterOut root
    | .error _ => ""
  else ""

/-- The `for filename in z.namelist()` loop (lines 23-32). -/
def entriesOut : List Entry → String
  | [] => ""
  | e :: es => entryOut e ++ entriesOut es

/-- The body of the outer `try` (lines 22-32): opening the archive
(`zipfile.ZipFile`, modelled by the `Except` input) followed by the entry
loop; an open failure is an escaping exception at this level. -/
def xlsxBody (zip : Except String (List Entry)) : Except String String :=
  match zip with
  | .error e => .error e
  | .ok entries => .ok (entriesOut entries)

/-- Lines 19-34 of the source: write the header line, run the archive body,
and catch any failure of it as `Failed to read xlsx: <e>`. Returns (text
written, escaping exception if any). -/
def read_xlsx (path : String) (zip : Except String (List Entry)) : String × Option String :=
  let header := "\n--- XLSX: " ++ path ++ " ---\n"
  match xlsxBody zip with
  | .ok body => (header ++ body, none)
  | .error e => (header ++ "Failed to read xlsx: " ++ e ++ "\n", none)

/-- The ambient state the driver runs in: the two hardcoded input paths with
the documents behind them, plus unrelated state (`noise`) that a deterministic
run must not depend on. -/
structure World where
  docxPath : String
  xlsxPath : String
  docx : Except String DocxDoc
  xlsx : Except String (List Entry)
  noise : Nat

/-- Lines 36-39 of the source: open the output file, run `read_docx` then
`read_xlsx`. Returns the final content of the output file and the process exit
status: an exception escaping `read_docx` aborts the run (the `with` block
still flushes what was written) and CPython exits with status 1; otherwise the
run continues and exits with status 0. -/
def mainRun (w : World) : String × Nat :=
  match read_docx w.docxPath w.docx with
  | (out1, some _) => (out1, 1)
  | (out1, none) => (out1 ++ (read_xlsx w.xlsxPath w.xlsx).1, 0)

mutual

/-- Erase every tail text in an element tree, keeping everything else. -/
def Xml.eraseTails : Xml → Xml
  | .node t cs _ => .node t (Xml.eraseTailsList cs) none

/-- Erase every tail text in a list of sibling element trees. -/
def Xml.eraseTailsList : List Xml → List Xml
  | [] => []
  | x :: xs => Xml.eraseTails x :: Xml.eraseTailsList xs

end

/-- Erase every tail text behind an archive entry (when it parsed). -/
def Entry.eraseTails (ent : Entry) : Entry :=
  ⟨ent.name, ent.parse.map Xml.eraseTails⟩

section Lemmas

theorem paragraphsOut_append (a b : List String) :
    paragraphsOut (a ++ b) = paragraphsOut a ++ paragraphsOut b := by
  induction a with
  | nil => simp [paragraphsOut]
  | cons p ps ih => simp [paragraphsOut, ih, String.append_assoc]

theorem rowsOut_append (a b : List (List String)) :
    rowsOut (a ++ b) = rowsOut a ++ rowsOut b := by
  induction a with
  | nil => simp [rowsOut]
  | cons r rs ih => simp [rowsOut, ih, String.append_assoc]

theorem entriesOut_append (a b : List Entry) :
    entriesOut (a ++ b) = entriesOut a ++ entriesOut b := by
  induction a with
  | nil => simp [entriesOut]
  | cons e es ih => simp [entriesOut, ih, String.append_assoc]

theorem strConcat_append (a b : List String) :
    strConcat (a ++ b) = strConcat a ++ strConcat b := by
  induction a with
  | nil => simp [strConcat]
  | cons s ss ih => simp [strConcat, ih, String.append_assoc]

/-- Whatever the archive input is, `read_xlsx` lets no exception escape: both
failure modes are caught inside it. -/
theorem read_xlsx_no_raise (path : String) (zip : Except String (List Entry)) :
    (read_xlsx path zip).2 = none := by
  cases zip <;> rfl

/-- An entry whose parse failed contributes no output at all. -/
theorem entryOut_of_parse_error (ent : Entry) (err : String)
    (h : ent.parse = .error err) : entryOut ent = "" := by
  unfold entryOut
  rw [h]
  cases pyEndsWith ent.name ".xml" <;> simp

mutual

theorem iterOut_eq_iter : ∀ x : Xml,
    x.iterOut = strConcat ((Xml.iter x).map nodeLine)
  | .node t cs _ => by
    simp [Xml.iterOut, Xml.iter, strConcat, nodeLine, Xml.text,
      iterOutList_eq_iterList cs]

theorem iterOutList_eq_iterList : ∀ xs : List Xml,
    Xml.iterOutList xs = strConcat ((Xml.iterList xs).map nodeLine)
  | [] => rfl
  | x :: xs => by
    simp [Xml.iterOutList, Xml.iterList, strConcat_append,
      iterOut_eq_iter x, iterOutList_eq_iterList xs]

end

end Lemmas

/-- C1: the claim says the line written for a non-whitespace paragraph is the
TRIMMED text plus a line break. The code (line 10) writes the untrimmed
`p.text`: for a document whose single paragraph is the text with leading and
trailing blanks, the docx section of the output keeps the blanks, and is not
the header followed by the trimmed line the claim predicts. -/
theorem c1_counterexample :
    (read_docx "a.docx" (.ok ⟨[" hi "], []⟩)).1 =
      "--- DOCX: a.docx ---\n" ++ " hi \n" ∧
    ¬ (read_docx "a.docx" (.ok ⟨[" hi "], []⟩)).1 =
      "--- DOCX: a.docx ---\n" ++ (pyStrip " hi " ++ "\n") := by
  constructor
  · decide
  · decide

/-- C1 (amended): for every paragraph whose text is non-empty after trimming,
the extractor writes that paragraph's ORIGINAL (untrimmed) text followed by a
line break, in document order; a paragraph that is empty or whitespace-only
after trimming produces no output at all. -/
theorem c1_paragraph_line (path : String) (d : DocxDoc) (ps₁ ps₂ : List String)
    (p q : String) (hsplit : d.paragraphs = ps₁ ++ p :: ps₂)
    (hp : pyStrip p ≠ "") (hq : pyStrip q = "") :
    (read_docx path (.ok d)).1 =
      "--- DOCX: " ++ path ++ " ---\n" ++ paragraphsOut ps₁ ++ (p ++ "\n") ++
        paragraphsOut ps₂ ++ tablesOut d.tables ∧
    paraOut q = "" := by
  refine ⟨?_, by simp [paraOut, hq]⟩
  simp [read_docx, hsplit, paragraphsOut_append, paragraphsOut, paraOut, hp,
    String.append_assoc]

/-- Witness for C1 (amended) on a one-paragraph document. -/
theorem c1_paragraph_line_witness :
    (read_docx "a.docx" (.ok ⟨[" x "], []⟩)).1 =
      "--- DOCX: " ++ "a.docx" ++ " ---\n" ++ paragraphsOut [] ++ (" x " ++ "\n") ++
        paragraphsOut [] ++ tablesOut [] ∧
    paraOut " " = "" :=
  c1_paragraph_line "a.docx" ⟨[" x "], []⟩ [] [] " x " " " rfl (by decide) (by decide)

/-- C2: when opening the spreadsheet archive fails with exception `e`, the
spreadsheet extractor writes exactly its header plus the single diagnostic
line `Failed to read xlsx: <e>`, lets no exception escape, and the process
(whose docx step succeeded) exits with status 0. -/
theorem c2_zip_failure_contained (w : World) (e : String) (d : DocxDoc)
    (hx : w.xlsx = .error e) (hd : w.docx = .ok d) :
    (read_xlsx w.xlsxPath w.xlsx).1 =
      "\n--- XLSX: " ++ w.xlsxPath ++ " ---\n" ++ "Failed to read xlsx: " ++ e ++ "\n" ∧
    (read_xlsx w.xlsxPath w.xlsx).2 = none ∧
    (mainRun w).2 = 0 := by
  refine ⟨?_, read_xlsx_no_raise _ _, ?_⟩
  · simp [read_xlsx, xlsxBody, hx, String.append_assoc]
  · simp [mainRun, read_docx, hd]

/-- Witness for C2 on a zero-content world whose xlsx fails to open. -/
theorem c2_zip_failure_contained_witness :
    (read_xlsx (World.mk "a.docx" "b.xlsx" (.ok ⟨[], []⟩) (.error "boom") 0).xlsxPath
        (World.mk "a.docx" "b.xlsx" (.ok ⟨[], []⟩) (.error "boom") 0).xlsx).1 =
      "\n--- XLSX: " ++ "b.xlsx" ++ " ---\n" ++ "Failed to read xlsx: " ++ "boom" ++ "\n" ∧
    (read_xlsx (World.mk "a.docx" "b.xlsx" (.ok ⟨[], []⟩) (.error "boom") 0).xlsxPath
        (World.mk "a.docx" "b.xlsx" (.ok ⟨[], []⟩) (.error "boom") 0).xlsx).2 = none ∧
    (mainRun (World.mk "a.docx" "b.xlsx" (.ok ⟨[], []⟩) (.error "boom") 0)).2 = 0 :=
  c2_zip_failure_contained (World.mk "a.docx" "b.xlsx" (.ok ⟨[], []⟩) (.error "boom") 0)
    "boom" ⟨[], []⟩ rfl rfl

/-- C3: an archive entry whose bytes fail to parse is skipped silently: the
output is the same as for the archive without that entry (no diagnostic, the
remaining entries still processed); concretely, an archive with one malformed
entry and one entry holding text node Revenue yields exactly the header plus
the line Revenue. -/
theorem c3_malformed_entry_skipped (path : String) (es₁ es₂ : List Entry)
    (ent : Entry) (err : String) (h : ent.parse = .error err) :
    (read_xlsx path (.ok (es₁ ++ ent :: es₂))).1 =
      (read_xlsx path (.ok (es₁ ++ es₂))).1 ∧
    (read_xlsx "book.xlsx" (.ok [⟨"bad.xml", .error "not well-formed"⟩,
        ⟨"sheet1.xml", .ok (.node (some "Revenue") [] none)⟩])).1 =
      "\n--- XLSX: book.xlsx ---\n" ++ "Revenue\n" := by
  constructor
  · simp [read_xlsx, xlsxBody, entriesOut_append, entriesOut,
      entryOut_of_parse_error ent err h, String.append_assoc]
  · decide

/-- Witness for C3 on a one-entry archive whose only entry fails to parse. -/
theorem c3_malformed_entry_skipped_witness :
    (read_xlsx "w.xlsx" (.ok ([] ++ Entry.mk "e.xml" (.error "bad") :: []))).1 =
      (read_xlsx "w.xlsx" (.ok ([] ++ []))).1 ∧
    (read_xlsx "book.xlsx" (.ok [⟨"bad.xml", .error "not well-formed"⟩,
        ⟨"sheet1.xml", .ok (.node (some "Revenue") [] none)⟩])).1 =
      "\n--- XLSX: book.xlsx ---\n" ++ "Revenue\n" :=
  c3_malformed_entry_skipped "w.xlsx" [] [] ⟨"e.xml", .error "bad"⟩ "bad" rfl

/-- Helper for C5: when every cell of a row normalizes to the empty string,
the `any(row_data)` guard of line 16 is false. -/
theorem any_cellNorm_eq_false {row : List String} (h : ∀ c ∈ row, cellNorm c = "") :
    (row.map cellNorm).any (fun s => !(s == "")) = false := by
  induction row with
  | nil => rfl
  | cons c cs ih =>
    simp only [List.map_cons, List.any_cons, Bool.or_eq_false_iff]
    refine ⟨by rw [h c (by simp)]; rfl, ih (fun x hx => h x (by simp [hx]))⟩

/-- C4: a table row is emitted as its cells, each with line breaks replaced by
spaces and then trimmed, joined by the three-character separator and ended by
a line break, provided some normalized cell is non-empty; on the cells a, the
empty string, and a two-line cell, the emitted line is exactly as the claim
states. -/
theorem c4_row_line (row : List String) (rs₁ rs₂ : List (List String))
    (h : (row.map cellNorm).any (fun s => !(s == "")) = true) :
    rowOut row = joinSep " | " (row.map cellNorm) ++ "\n" ∧
    rowsOut (rs₁ ++ row :: rs₂) =
      rowsOut rs₁ ++ (joinSep " | " (row.map cellNorm) ++ "\n") ++ rowsOut rs₂ ∧
    rowOut ["a", "", " b\nc "] = "a |  | b c\n" ∧
    cellNorm " b\nc " = "b c" := by
  refine ⟨?_, ?_, by decide, by decide⟩
  · simp [rowOut, h]
  · simp [rowsOut_append, rowsOut, rowOut, h, String.append_assoc]

/-- Witness for C4 on a single-cell row inside an otherwise empty table. -/
theorem c4_row_line_witness :
    rowOut ["a"] = joinSep " | " (["a"].map cellNorm) ++ "\n" ∧
    rowsOut ([] ++ ["a"] :: []) =
      rowsOut [] ++ (joinSep " | " (["a"].map cellNorm) ++ "\n") ++ rowsOut [] ∧
    rowOut ["a", "", " b\nc "] = "a |  | b c\n" ∧
    cellNorm " b\nc " = "b c" :=
  c4_row_line ["a"] [] [] (by decide)

/-- C5: a row all of whose cells are empty or whitespace-only after
normalization produces nothing: the row output is the empty string, and a
table containing such a row prints the same as the table without it. -/
theorem c5_empty_row_skipped (row : List String) (rs₁ rs₂ : List (List String))
    (h : ∀ c ∈ row, cellNorm c = "") :
    rowOut row = "" ∧
    rowsOut (rs₁ ++ row :: rs₂) = rowsOut (rs₁ ++ rs₂) := by
  have hany := any_cellNorm_eq_false h
  constructor
  · simp [rowOut, hany]
  · simp [rowsOut_append, rowsOut, rowOut, hany, String.append_assoc]

/-- Witness for C5 on a row holding one whitespace-only cell. -/
theorem c5_empty_row_skipped_witness :
    rowOut [" "] = "" ∧ rowsOut ([] ++ [" "] :: []) = rowsOut ([] ++ []) :=
  c5_empty_row_skipped [" "] [] [] (by decide)

/-- Helper for C6: one entry of the loop, rephrased through the pre-order
traversal list. -/
theorem entryOut_eq_spec (ent : Entry) :
    entryOut ent =
      (if pyEndsWith ent.name ".xml" then
        match ent.parse with
        | .ok root => strConcat ((Xml.iter root).map nodeLine)
        | .error _ => ""
      else "") := by
  unfold entryOut
  cases ent.parse <;> cases pyEndsWith ent.name ".xml" <;> simp [iterOut_eq_iter]

/-- Helper for C6: the whole entry loop, rephrased through the pre-order
traversal list. -/
theorem entriesOut_eq_spec (entries : List Entry) :
    entriesOut entries =
      strConcat (entries.map (fun ent =>
        if pyEndsWith ent.name ".xml" then
          match ent.parse with
          | .ok root => strConcat ((Xml.iter root).map nodeLine)
          | .error _ => ""
        else "")) := by
  induction entries with
  | nil => rfl
  | cons e es ih => simp [entriesOut, strConcat, ih, entryOut_eq_spec]

/-- C6: on a successfully opened archive the extractor emits, entry by entry
in enumeration order, output only for entries whose name ends in the xml
extension, and for each parsed entry it emits one line per element of the
pre-order traversal whose direct text is non-empty after trimming; an entry
whose name does not end in the xml extension contributes the same (empty)
output whatever its bytes would parse to, since it is never read or parsed. -/
theorem c6_xml_entries_preorder (path : String) (entries : List Entry)
    (nm : String) (p₁ p₂ : Except String Xml)
    (hnm : pyEndsWith nm ".xml" = false) :
    (read_xlsx path (.ok entries)).1 =
      "\n--- XLSX: " ++ path ++ " ---\n" ++
        strConcat (entries.map (fun ent =>
          if pyEndsWith ent.name ".xml" then
            match ent.parse with
            | .ok root => strConcat ((Xml.iter root).map nodeLine)
            | .error _ => ""
          else "")) ∧
    entryOut ⟨nm, p₁⟩ = entryOut ⟨nm, p₂⟩ := by
  constructor
  · simp [read_xlsx, xlsxBody, entriesOut_eq_spec, String.append_assoc]
  · simp [entryOut, hnm]

/-- Witness for C6 on a two-entry archive, one xml entry and one binary
entry. -/
theorem c6_xml_entries_preorder_witness :
    (read_xlsx "wb.xlsx" (.ok [⟨"sheet1.xml", .ok (.node (some "T") [] none)⟩,
        ⟨"media.bin", .ok (.node (some "ZZ") [] none)⟩])).1 =
      "\n--- XLSX: " ++ "wb.xlsx" ++ " ---\n" ++
        strConcat (([⟨"sheet1.xml", .ok (.node (some "T") [] none)⟩,
            ⟨"media.bin", .ok (.node (some "ZZ") [] none)⟩] : List Entry).map (fun ent =>
          if pyEndsWith ent.name ".xml" then
            match ent.parse with
            | .ok root => strConcat ((Xml.iter root).map nodeLine)
            | .error _ => ""
          else "")) ∧
    entryOut ⟨"media.bin", .ok (.node (some "ZZ") [] none)⟩ =
      entryOut ⟨"media.bin", .error "ignored"⟩ :=
  c6_xml_entries_preorder "wb.xlsx"
    [⟨"sheet1.xml", .ok (.node (some "T") [] none)⟩,
     ⟨"media.bin", .ok (.node (some "ZZ") [] none)⟩]
    "media.bin" (.ok (.node (some "ZZ") [] none)) (.error "ignored") (by decide)

/-- C7: error handling is asymmetric: the process exit status is 0 exactly
when opening the word document succeeded, it is 1 exactly when opening the
word document raised (that exception is uncaught), and no exception ever
escapes the spreadsheet extractor, so a spreadsheet failure never changes the
exit status. -/
theorem c7_exit_status (w : World) :
    ((mainRun w).2 = 0 ↔ ∃ d, w.docx = .ok d) ∧
    ((mainRun w).2 = 1 ↔ ∃ e, w.docx = .error e) ∧
    (read_xlsx w.xlsxPath w.xlsx).2 = none := by
  refine ⟨?_, ?_, read_xlsx_no_raise _ _⟩ <;>
    cases hd : w.docx <;> simp [mainRun, read_docx, hd]

/-- C8: the driver is a function of the input files alone: two worlds that
agree on the two input paths and the documents behind them (but may differ in
any other ambient state) produce the same output file content and the same
exit status. -/
theorem c8_deterministic (w₁ w₂ : World) (h₁ : w₁.docxPath = w₂.docxPath)
    (h₂ : w₁.xlsxPath = w₂.xlsxPath) (h₃ : w₁.docx = w₂.docx)
    (h₄ : w₁.xlsx = w₂.xlsx) :
    mainRun w₁ = mainRun w₂ := by
  unfold mainRun
  rw [h₁, h₂, h₃, h₄]

/-- Witness for C8 on two worlds that differ only in ambient noise. -/
theorem c8_deterministic_witness :
    mainRun ⟨"a.docx", "b.xlsx", .ok ⟨["p"], []⟩, .error "z", 0⟩ =
      mainRun ⟨"a.docx", "b.xlsx", .ok ⟨["p"], []⟩, .error "z", 37⟩ :=
  c8_deterministic ⟨"a.docx", "b.xlsx", .ok ⟨["p"], []⟩, .error "z", 0⟩
    ⟨"a.docx", "b.xlsx", .ok ⟨["p"], []⟩, .error "z", 37⟩ rfl rfl rfl rfl

section TailLemmas

mutual

theorem iterOut_eraseTails : ∀ x : Xml, (Xml.eraseTails x).iterOut = x.iterOut
  | .node t cs _ => by
    simp [Xml.eraseTails, Xml.iterOut, iterOutList_eraseTailsList cs]

theorem iterOutList_eraseTailsList : ∀ xs : List Xml,
    Xml.iterOutList (Xml.eraseTailsList xs) = Xml.iterOutList xs
  | [] => rfl
  | x :: xs => by
    simp [Xml.eraseTailsList, Xml.iterOutList, iterOut_eraseTails x,
      iterOutList_eraseTailsList xs]

end

theorem entryOut_eraseTails (ent : Entry) :
    entryOut (Entry.eraseTails ent) = entryOut ent := by
  unfold entryOut Entry.eraseTails
  cases hp : ent.parse <;> cases pyEndsWith ent.name ".xml" <;>
    simp [hp, Except.map, iterOut_eraseTails]

theorem entriesOut_eraseTails (entries : List Entry) :
    entriesOut (entries.map Entry.eraseTails) = entriesOut entries := by
  induction entries with
  | nil => rfl
  | cons e es ih => simp [entriesOut, entryOut_eraseTails, ih]

end TailLemmas

/-- C9: the spreadsheet extractor writes only the direct text of each element
(the text before its first child); tail text is never consulted: erasing every
tail in every parsed entry leaves the output unchanged, and on a concrete tree
whose tails are non-empty the output holds only the direct texts. -/
theorem c9_tail_text_ignored (path : String) (entries : List Entry) :
    (read_xlsx path (.ok (entries.map Entry.eraseTails))).1 =
      (read_xlsx path (.ok entries)).1 ∧
    Xml.iterOut (.node (some "head") [.node (some " a ") [] (some "TAILTEXT")]
      (some "ROOTTAIL")) = "head\na\n" := by
  constructor
  · simp [read_xlsx, xlsxBody, entriesOut_eraseTails]
  · decide

/-- C10: the docx header is written before the document is opened, so when
opening fails the output file already holds exactly that header line (in
particular it is not empty) and the process exits with status 1. -/
theorem c10_header_precedes_failure (w : World) (e : String)
    (h : w.docx = .error e) :
    (mainRun w).1 = "--- DOCX: " ++ w.docxPath ++ " ---\n" ∧
    (mainRun w).1 ≠ "" ∧
    (mainRun w).2 = 1 := by
  refine ⟨by simp [mainRun, read_docx, h], ?_, by simp [mainRun, read_docx, h]⟩
  simp only [mainRun, read_docx, h]
  intro heq
  have hlen := congrArg String.length heq
  simp [String.length_append] at hlen
  exact absurd hlen.1.1 (by decide)

/-- Witness for C10 on a world whose docx fails to open. -/
theorem c10_header_precedes_failure_witness :
    (mainRun ⟨"a.docx", "b.xlsx", .error "missing", .ok [], 0⟩).1 =
      "--- DOCX: " ++ "a.docx" ++ " ---\n" ∧
    (mainRun ⟨"a.docx", "b.xlsx", .error "missing", .ok [], 0⟩).1 ≠ "" ∧
    (mainRun ⟨"a.docx", "b.xlsx", .error "missing", .ok [], 0⟩).2 = 1 :=
  c10_header_precedes_failure ⟨"a.docx", "b.xlsx", .error "missing", .ok [], 0⟩
    "missing" rfl

end ReadDocs
